import Mathlib

/-!
Shallow embedding of `actix-web-database-identity` (src/src/lib.rs): the
per-request SQL-backed identity state machine, its resolver, its write-time
persistence dispatch, and the builder's backend-variant selection.

Randomness (the 24 random bytes drawn in `remember`), the actor's reply to a
persistence message, and the record returned by the store's find operation
are passed as explicit parameters; everything else follows the source.
-/

namespace ActixSqlIdentity

/-- `Variant` from the crate's `sql` module as used in lib.rs: the three
supported backends. -/
inductive Variant where
  | Mysql
  | Pg
  | Sqlite
deriving DecidableEq

/-- `SqlIdentityError` (lib.rs lines 101-115). -/
inductive SqlIdentityError where
  | SqlVariantNotSupported
  | TokenNotFound
  | TokenNotSet
  | TokenRequired
deriving DecidableEq

/-- `SqlIdentityState` (lib.rs lines 117-122). -/
inductive SqlIdentityState where
  | Created
  | Updated
  | Deleted
  | Unchanged
deriving DecidableEq

/-- A structured store failure reported by the SQL actor, distinct from a
successful reply.  The concrete cases live in the crate's `sql` module; only
their existence matters here. -/
inductive StoreError where
  | connectionFailed
  | notFound
  | conflict
deriving DecidableEq

/-- The actix-web error constructors used by lib.rs, with their payloads. -/
inductive ActixError where
  | errorBadRequest (e : SqlIdentityError)
  | errorInternalServerErrorSql (e : SqlIdentityError)
  | errorInternalServerErrorStore (e : StoreError)
  | errorUnauthorized (e : SqlIdentityError)
deriving DecidableEq

/-- An HTTP response, reduced to the part lib.rs touches: its header list.
`headers.append` in the create path becomes appending a (name, value) pair. -/
structure HttpResponse where
  headers : List (String × String)
deriving DecidableEq

/-- `SqlIdentityModel`: the persisted record as consumed by
`SqlIdentityPolicy::from_request` (fields `id`, `token`, `userid`, `created`).
The timestamp is abstracted to an integer. -/
structure SqlIdentityModel where
  id : Int
  token : String
  userid : String
  created : Int
deriving DecidableEq

/-- `SqlIdentity` (lib.rs lines 125-134) without the shared `inner` handle,
which is modelled by passing the header name and store replies explicitly. -/
structure SqlIdentity where
  id : Int
  state : SqlIdentityState
  identity : Option String
  token : Option String
  ip : Option String
  user_agent : Option String
  created : Int
deriving DecidableEq

/-- The standard base64 alphabet character at index `n`. -/
def b64Char (n : Nat) : Char :=
  "ABCDEFGHIJKLMNOPQRSTUVWXYZabcdefghijklmnopqrstuvwxyz0123456789+/".toList.getD n 'A'

/-- Standard base64 encoding of a byte list (each entry < 256), as
`base64::encode` does in `remember`. -/
def base64Chunks : List Nat → List Char
  | b0 :: b1 :: b2 :: rest =>
      b64Char (b0 / 4) ::
      b64Char (b0 % 4 * 16 + b1 / 16) ::
      b64Char (b1 % 16 * 4 + b2 / 64) ::
      b64Char (b2 % 64) ::
      base64Chunks rest
  | [b0, b1] =>
      [b64Char (b0 / 4), b64Char (b0 % 4 * 16 + b1 / 16), b64Char (b1 % 16 * 4), '=']
  | [b0] =>
      [b64Char (b0 / 4), b64Char (b0 % 4 * 16), '=', '=']
  | [] => []

def base64Encode (bytes : List Nat) : String :=
  String.mk (base64Chunks bytes)

/-- `SqlIdentity::remember` (lib.rs lines 147-156).  The 24 random bytes the
source draws from `thread_rng` are the explicit parameter `arr`. -/
def SqlIdentity.remember (s : SqlIdentity) (value : String) (arr : List Nat) : SqlIdentity :=
  { s with identity := some value, token := some (base64Encode arr), state := .Created }

/-- `SqlIdentity::forget` (lib.rs lines 159-162). -/
def SqlIdentity.forget (s : SqlIdentity) : SqlIdentity :=
  { s with identity := none, state := .Deleted }

/-- The persistence message dispatched at write time. -/
inductive PersistAction where
  | createIdentity
  | updateIdentity
  | deleteIdentity (token : String)
deriving DecidableEq

/-- `MiddlewareResponse` as produced by `write`: a dispatched future carrying
a persistence action, or `Done(resp)` with no persistence call. -/
inductive WriteOutcome where
  | dispatch (a : PersistAction) (resp : HttpResponse)
  | done (resp : HttpResponse)
deriving DecidableEq

/-- `SqlIdentity::write` (lib.rs lines 169-197): branch on `state` with the
source's guards, reset `state` to `Unchanged` before dispatching, and return
the mutated instance together with the middleware response. -/
def SqlIdentity.write (s : SqlIdentity) (resp : HttpResponse) :
    Except ActixError (SqlIdentity × WriteOutcome) :=
  match s.state with
  | .Created =>
      .ok ({ s with state := .Unchanged }, .dispatch .createIdentity resp)
  | .Updated =>
      if s.token.isSome && s.identity.isSome then
        .ok ({ s with state := .Unchanged }, .dispatch .updateIdentity resp)
      else
        .error (.errorBadRequest .TokenRequired)
  | .Deleted =>
      match s.token with
      | some token =>
          .ok ({ s with state := .Unchanged }, .dispatch (.deleteIdentity token) resp)
      | none =>
          .error (.errorBadRequest .TokenRequired)
  | .Unchanged =>
      .ok ({ s with state := .Unchanged }, .done resp)

/-- `HeaderValue::from_str` as invoked by `token.parse()` in the create path:
succeeds exactly when every character is a legal header-value byte
(visible ASCII, space, tab, or a non-ASCII byte). -/
def isValidHeaderValueChar (c : Char) : Bool :=
  (32 ≤ c.toNat && c.toNat != 127) || c.toNat == 9

def headerValueParse (s : String) : Option String :=
  if s.toList.all isValidHeaderValueChar then some s else none

/-- `SqlIdentityInner::create` (lib.rs lines 216-247).  `hdr` is the inner
handle's response-header name and `storeResult` the actor's reply to the
`UpdateIdentity::create` message. -/
def SqlIdentityInner.create (hdr : String) (identity : SqlIdentity) (resp : HttpResponse)
    (storeResult : Except StoreError Unit) : Except ActixError HttpResponse :=
  match identity.token with
  | some token =>
      match headerValueParse token with
      | some v =>
          let resp2 : HttpResponse := { resp with headers := resp.headers ++ [(hdr, v)] }
          match storeResult with
          | .ok _ => .ok resp2
          | .error e => .error (.errorInternalServerErrorStore e)
      | none => .error (.errorInternalServerErrorSql .TokenNotSet)
  | none => .error (.errorUnauthorized .TokenNotFound)

/-- `SqlIdentityInner::save` (lib.rs lines 250-268). -/
def SqlIdentityInner.save (resp : HttpResponse) (storeResult : Except StoreError Unit) :
    Except ActixError HttpResponse :=
  match storeResult with
  | .ok _ => .ok resp
  | .error e => .error (.errorInternalServerErrorStore e)

/-- `SqlIdentityInner::remove` (lib.rs lines 271-290). -/
def SqlIdentityInner.remove (token : String) (resp : HttpResponse)
    (storeResult : Except StoreError Unit) : Except ActixError HttpResponse :=
  match storeResult with
  | .ok _ => .ok resp
  | .error e => .error (.errorInternalServerErrorStore e)

/-- `HeaderValue::to_str`: succeeds exactly when the raw header value is
visible ASCII (including space). -/
def headerToStr (s : String) : Option String :=
  if s.toList.all (fun c => 32 ≤ c.toNat && c.toNat < 127) then some s else none

/-- Rust's `str::split(sep)` over the character list: the fields between
occurrences of `sep`, always at least one field. -/
def splitCharAux (sep : Char) (acc : List Char) : List Char → List (List Char)
  | [] => [acc.reverse]
  | c :: rest =>
      if c = sep then acc.reverse :: splitCharAux sep [] rest
      else splitCharAux sep (c :: acc) rest

def splitChar (sep : Char) (s : String) : List String :=
  (splitCharAux sep [] s.toList).map String.mk

/-- Whether `SqlIdentityInner::load` sends a `FindIdentity` message to the
actor, and with which token. -/
inductive LoadAction where
  | findToken (token : String)
  | noCall
deriving DecidableEq

/-- The control flow of `SqlIdentityInner::load` (lib.rs lines 293-331) up to
the point where the actor is (or is not) consulted: read the Authorization
header, convert it to a string, split on spaces, and require both a scheme
field and a token field. -/
def SqlIdentityInner.load (authHeader : Option String) : LoadAction :=
  match authHeader with
  | none => .noCall
  | some raw =>
      match headerToStr raw with
      | none => .noCall
      | some h =>
          let parts := splitChar ' ' h
          match parts.get? 0, parts.get? 1 with
          | some _, some token => .findToken token
          | _, _ => .noCall

/-- The value of `load`'s future: the actor's `FindIdentity` reply, with a
store failure logged and mapped to `None` (lib.rs lines 318-324). -/
def SqlIdentityInner.loadResult (authHeader : Option String)
    (find : String → Except StoreError SqlIdentityModel) : Option SqlIdentityModel :=
  match SqlIdentityInner.load authHeader with
  | .noCall => none
  | .findToken t =>
      match find t with
      | .ok val => some val
      | .error _ => none

/-- `SqlIdentityPolicy::from_request` (lib.rs lines 471-512): resolve the
request to a bound instance when `load` yields a record, otherwise to the
unbound instance.  `conn_ip`, `ua` and `now` stand for the request's
connection data and `Utc::now`. -/
def SqlIdentityPolicy.from_request (authHeader : Option String)
    (find : String → Except StoreError SqlIdentityModel)
    (conn_ip : String) (ua : String) (now : Int) : SqlIdentity :=
  match SqlIdentityInner.loadResult authHeader find with
  | some idrec =>
      { id := idrec.id, identity := some idrec.userid, token := some idrec.token,
        ip := some conn_ip, user_agent := some ua, created := idrec.created,
        state := .Updated }
  | none =>
      { id := -1, identity := none, token := none,
        ip := some conn_ip, user_agent := some ua, created := now,
        state := .Unchanged }

/-- Modelled from the spec: the SQL actor built by `SqlActor::sqlite` /
`mysql` / `pg` in the crate's `sql` module (not part of lib.rs), reduced to
the configuration it owns: a pool of `pool` connections to `uri`. -/
structure SqlActor where
  pool : Nat
  uri : String
deriving DecidableEq

/-- A connection-time failure of an actor constructor. -/
inductive ConnError where
  | connectionRefused
deriving DecidableEq

/-- `SqlIdentityInner` as configuration data (lib.rs lines 201-204). -/
structure SqlIdentityInnerData where
  addr : SqlActor
  hdr : String
deriving DecidableEq

/-- `SqlIdentityPolicy` (lib.rs line 336). -/
structure SqlIdentityPolicyData where
  inner : SqlIdentityInnerData
deriving DecidableEq

def DEFAULT_RESPONSE_HDR : String := "X-Actix-Auth"
def DEFAULT_POOL_SIZE : Nat := 3

/-- `SqlIdentityBuilder` (lib.rs lines 339-344). -/
structure SqlIdentityBuilder where
  pool : Nat
  uri : String
  hdr : String
  variant : Variant
deriving DecidableEq

/-- Rust's `str::starts_with` over the character lists. -/
def startsWithStr (s pre : String) : Bool :=
  pre.toList.isPrefixOf s.toList

/-- `SqlIdentityBuilder::variant` (lib.rs lines 386-394); named `variantFor`
because the structure's field projection takes the source name. -/
def SqlIdentityBuilder.variantFor (uri : String) : Variant :=
  if startsWithStr uri "mysql://" then .Mysql
  else if startsWithStr uri "postgres://" || startsWithStr uri "postgresql://" then .Pg
  else .Sqlite

/-- `SqlIdentityBuilder::new` (lib.rs lines 374-384). -/
def SqlIdentityBuilder.new (uri : String) : SqlIdentityBuilder :=
  { pool := DEFAULT_POOL_SIZE, uri := uri, hdr := DEFAULT_RESPONSE_HDR,
    variant := SqlIdentityBuilder.variantFor uri }

/-- `SqlIdentityBuilder::finish` (lib.rs lines 421-432).  `connect` stands
for the actor constructors `SqlActor::sqlite` / `mysql` / `pg` from the
crate's `sql` module (modelled from the spec: each attempts the connection
pool and returns the actor or a connection error). -/
def SqlIdentityBuilder.finish (b : SqlIdentityBuilder)
    (connect : Variant → Nat → String → Except ConnError SqlActor) :
    Except ConnError SqlIdentityPolicyData :=
  match b.variant with
  | .Sqlite => (connect .Sqlite b.pool b.uri).map (fun a => ⟨⟨a, b.hdr⟩⟩)
  | .Mysql => (connect .Mysql b.pool b.uri).map (fun a => ⟨⟨a, b.hdr⟩⟩)
  | .Pg => (connect .Pg b.pool b.uri).map (fun a => ⟨⟨a, b.hdr⟩⟩)

/-- One mutation of a per-request instance: the operations lib.rs exposes on
`SqlIdentity`.  A failed `write` leaves the instance as it was. -/
inductive Step : SqlIdentity → SqlIdentity → Prop where
  | remember (s : SqlIdentity) (value : String) (arr : List Nat) :
      Step s (s.remember value arr)
  | forget (s : SqlIdentity) : Step s s.forget
  | write_ok (s : SqlIdentity) (resp : HttpResponse) (s2 : SqlIdentity) (out : WriteOutcome) :
      s.write resp = .ok (s2, out) → Step s s2
  | write_err (s : SqlIdentity) (resp : HttpResponse) (e : ActixError) :
      s.write resp = .error e → Step s s

/-- An instance as the resolver constructs it at request start. -/
def Initial (s : SqlIdentity) : Prop :=
  ∃ authHeader find conn_ip ua now,
    s = SqlIdentityPolicy.from_request authHeader find conn_ip ua now

/-- An instance reachable from some resolver-constructed instance by
remember / forget / write calls. -/
def Reachable (s : SqlIdentity) : Prop :=
  ∃ s0, Initial s0 ∧ Relation.ReflTransGen Step s0 s

/-- In state `Created`, both the token and the identity are populated. -/
def CreatedInv (s : SqlIdentity) : Prop :=
  s.state = .Created → s.token.isSome = true ∧ s.identity.isSome = true

lemma base64Chunks_length (n : Nat) :
    ∀ l : List Nat, l.length = 3 * n → (base64Chunks l).length = 4 * n := by
  induction n with
  | zero =>
      intro l h
      rcases l with - | ⟨b0, t⟩
      · rfl
      · simp at h
  | succ n ih =>
      intro l h
      rcases l with - | ⟨b0, - | ⟨b1, - | ⟨b2, rest⟩⟩⟩
      · simp [Nat.mul_succ] at h
      · simp [Nat.mul_succ] at h
      · simp [Nat.mul_succ] at h
      · have hr : rest.length = 3 * n := by
          simp [Nat.mul_succ] at h
          omega
        simp [base64Chunks, ih rest hr, Nat.mul_succ]

lemma base64Encode_length (l : List Nat) (h : l.length = 24) :
    (base64Encode l).length = 32 := by
  have h1 : (base64Encode l).length = (base64Chunks l).length := rfl
  have h2 : (base64Chunks l).length = 4 * 8 := base64Chunks_length 8 l (by omega)
  omega

lemma setState_unchanged_eq (s : SqlIdentity) (h : s.state = .Unchanged) :
    ({ s with state := .Unchanged } : SqlIdentity) = s := by
  cases s with
  | mk id st idn tok ip ua cr =>
      simp only at h
      subst h
      rfl

lemma write_ok_state (s : SqlIdentity) (resp : HttpResponse) (s2 : SqlIdentity)
    (out : WriteOutcome) (h : s.write resp = Except.ok (s2, out)) :
    s2.state = .Unchanged := by
  unfold SqlIdentity.write at h
  split at h
  · simp only [Except.ok.injEq, Prod.mk.injEq] at h
    obtain ⟨h1, -⟩ := h
    subst h1
    rfl
  · split at h
    · simp only [Except.ok.injEq, Prod.mk.injEq] at h
      obtain ⟨h1, -⟩ := h
      subst h1
      rfl
    · exact absurd h (by simp)
  · split at h
    · simp only [Except.ok.injEq, Prod.mk.injEq] at h
      obtain ⟨h1, -⟩ := h
      subst h1
      rfl
    · exact absurd h (by simp)
  · simp only [Except.ok.injEq, Prod.mk.injEq] at h
    obtain ⟨h1, -⟩ := h
    subst h1
    rfl

lemma initial_createdInv (s : SqlIdentity) (h : Initial s) : CreatedInv s := by
  obtain ⟨ah, find, ip, ua, now, rfl⟩ := h
  intro hc
  unfold SqlIdentityPolicy.from_request at hc
  cases hres : SqlIdentityInner.loadResult ah find <;> simp [hres] at hc

lemma step_createdInv {s s2 : SqlIdentity} (hstep : Step s s2) (hinv : CreatedInv s) :
    CreatedInv s2 := by
  cases hstep with
  | remember value arr =>
      intro hc
      exact ⟨rfl, rfl⟩
  | forget =>
      intro hc
      simp [SqlIdentity.forget] at hc
  | write_ok resp s2x out h =>
      intro hc
      rw [write_ok_state _ resp _ out h] at hc
      simp at hc
  | write_err resp e h =>
      exact hinv

lemma reachable_createdInv (s : SqlIdentity) (h : Reachable s) : CreatedInv s := by
  obtain ⟨s0, h0, hsteps⟩ := h
  induction hsteps with
  | refl => exact initial_createdInv s0 h0
  | tail hab hbc ih => exact step_createdInv hbc ih

/-- Claim C1, as stated, is false on the code: a request whose token the
store finds resolves to a bound instance in state `Updated`, not
`Unchanged`. -/
theorem from_request_found_state_cex :
    (SqlIdentityPolicy.from_request (some "Bearer abc")
        (fun _ => Except.ok ⟨1, "abc", "alice", 0⟩) "1.2.3.4" "ua" 5).state
      = SqlIdentityState.Updated ∧
    SqlIdentityState.Updated ≠ SqlIdentityState.Unchanged := by
  exact ⟨by decide, by decide⟩

/-- Claim C1 (amended): when the Authorization header resolves to a token
and the store's find returns a record, the resolver constructs the bound
instance with `identity = some userid`, `token = some token` and
`state = Updated`; consequently a request that performs no remember/forget
dispatches an update persistence call at write time. -/
theorem from_request_found (authHeader : Option String)
    (find : String → Except StoreError SqlIdentityModel)
    (conn_ip ua : String) (now : Int) (t : String) (m : SqlIdentityModel)
    (hload : SqlIdentityInner.load authHeader = .findToken t)
    (hfind : find t = .ok m) :
    SqlIdentityPolicy.from_request authHeader find conn_ip ua now =
      { id := m.id, identity := some m.userid, token := some m.token,
        ip := some conn_ip, user_agent := some ua, created := m.created,
        state := .Updated } ∧
    ∀ resp, (SqlIdentityPolicy.from_request authHeader find conn_ip ua now).write resp =
      .ok ({ id := m.id, identity := some m.userid, token := some m.token,
             ip := some conn_ip, user_agent := some ua, created := m.created,
             state := .Unchanged }, .dispatch .updateIdentity resp) := by
  have hres : SqlIdentityPolicy.from_request authHeader find conn_ip ua now =
      { id := m.id, identity := some m.userid, token := some m.token,
        ip := some conn_ip, user_agent := some ua, created := m.created,
        state := .Updated } := by
    simp [SqlIdentityPolicy.from_request, SqlIdentityInner.loadResult, hload, hfind]
  refine ⟨hres, fun resp => ?_⟩
  rw [hres]
  simp [SqlIdentity.write]

/-- Witness for the amended claim C1 at a concrete request. -/
theorem from_request_found_witness :
    SqlIdentityPolicy.from_request (some "Bearer abc")
        (fun _ => Except.ok ⟨1, "abc", "alice", 0⟩) "1.2.3.4" "ua" 5 =
      { id := 1, identity := some "alice", token := some "abc",
        ip := some "1.2.3.4", user_agent := some "ua", created := 0,
        state := .Updated } ∧
    (SqlIdentityPolicy.from_request (some "Bearer abc")
        (fun _ => Except.ok ⟨1, "abc", "alice", 0⟩) "1.2.3.4" "ua" 5).write ⟨[]⟩ =
      .ok ({ id := 1, identity := some "alice", token := some "abc",
             ip := some "1.2.3.4", user_agent := some "ua", created := 0,
             state := .Unchanged }, .dispatch .updateIdentity ⟨[]⟩) := by
  have h := from_request_found (some "Bearer abc")
    (fun _ => Except.ok ⟨1, "abc", "alice", 0⟩) "1.2.3.4" "ua" 5 "abc"
    ⟨1, "abc", "alice", 0⟩ (by decide) rfl
  exact ⟨h.1, h.2 ⟨[]⟩⟩

/-- Claim C2: whenever `write` dispatches a persistence action, the returned
instance is in state `Unchanged`, and a second `write` on it dispatches
nothing and passes the response through unmodified. -/
theorem write_at_most_once (s : SqlIdentity) (resp : HttpResponse) (s2 : SqlIdentity)
    (a : PersistAction) (r : HttpResponse)
    (h : s.write resp = .ok (s2, .dispatch a r)) :
    s2.state = .Unchanged ∧ ∀ resp2, s2.write resp2 = .ok (s2, .done resp2) := by
  have hst : s2.state = .Unchanged := write_ok_state s resp s2 (.dispatch a r) h
  refine ⟨hst, fun resp2 => ?_⟩
  unfold SqlIdentity.write
  rw [hst, setState_unchanged_eq s2 hst]

/-- Witness for claim C2: a remembered instance dispatches its create once,
then the second write is a pass-through. -/
theorem write_at_most_once_witness :
    ({ id := -1, state := SqlIdentityState.Unchanged, identity := some "alice",
       token := some "t", ip := none, user_agent := none, created := 0 } : SqlIdentity).write
        ⟨[("a", "b")]⟩ =
      .ok ({ id := -1, state := .Unchanged, identity := some "alice",
             token := some "t", ip := none, user_agent := none, created := 0 },
           .done ⟨[("a", "b")]⟩) := by
  have h : ({ id := -1, state := SqlIdentityState.Created, identity := some "alice",
                token := some "t", ip := none, user_agent := none,
                created := 0 } : SqlIdentity).write ⟨[]⟩ =
      .ok ({ id := -1, state := .Unchanged, identity := some "alice",
             token := some "t", ip := none, user_agent := none, created := 0 },
           .dispatch .createIdentity ⟨[]⟩) := rfl
  exact (write_at_most_once _ ⟨[]⟩ _ .createIdentity ⟨[]⟩ h).2 ⟨[("a", "b")]⟩

/-- Claim C3: in the write-time create path the fresh token is appended to
the response headers independently of the persistence result; a store
failure discards the success-shaped response for a server error, and a token
that fails header serialization yields the `TokenNotSet` server error. -/
theorem create_token_header (hdr : String) (idn : SqlIdentity) (resp : HttpResponse)
    (t : String) (ht : idn.token = some t) :
    (∀ v, headerValueParse t = some v →
      SqlIdentityInner.create hdr idn resp (Except.ok ()) =
        Except.ok ⟨resp.headers ++ [(hdr, v)]⟩ ∧
      ∀ e, SqlIdentityInner.create hdr idn resp (Except.error e) =
        Except.error (ActixError.errorInternalServerErrorStore e)) ∧
    (headerValueParse t = none →
      ∀ r, SqlIdentityInner.create hdr idn resp r =
        Except.error (ActixError.errorInternalServerErrorSql SqlIdentityError.TokenNotSet)) := by
  constructor
  · intro v hv
    constructor
    · simp [SqlIdentityInner.create, ht, hv]
    · intro e
      simp [SqlIdentityInner.create, ht, hv]
  · intro hv r
    cases r <;> simp [SqlIdentityInner.create, ht, hv]

/-- Witness for claim C3 at a concrete token and response. -/
theorem create_token_header_witness :
    SqlIdentityInner.create "X-Actix-Auth"
        { id := -1, state := .Created, identity := some "alice", token := some "abc",
          ip := none, user_agent := none, created := 0 }
        ⟨[("C", "d")]⟩ (Except.ok ()) =
      Except.ok ⟨[("C", "d"), ("X-Actix-Auth", "abc")]⟩ ∧
    SqlIdentityInner.create "X-Actix-Auth"
        { id := -1, state := .Created, identity := some "alice", token := some "abc",
          ip := none, user_agent := none, created := 0 }
        ⟨[("C", "d")]⟩ (Except.error StoreError.connectionFailed) =
      Except.error (ActixError.errorInternalServerErrorStore StoreError.connectionFailed) := by
  have h := (create_token_header "X-Actix-Auth"
    { id := -1, state := .Created, identity := some "alice", token := some "abc",
      ip := none, user_agent := none, created := 0 }
    ⟨[("C", "d")]⟩ "abc" rfl).1 "abc" (by decide)
  exact ⟨h.1, h.2 StoreError.connectionFailed⟩

/-- Claim C4: `remember value` with 24 fresh random bytes sets
`identity = some value`, overwrites the token with the base64 encoding of
those bytes (a 32-character string), and sets the state to `Created`. -/
theorem remember_spec (s : SqlIdentity) (value : String) (arr : List Nat)
    (h : arr.length = 24) :
    (s.remember value arr).identity = some value ∧
    (s.remember value arr).token = some (base64Encode arr) ∧
    (base64Encode arr).length = 32 ∧
    (s.remember value arr).state = .Created :=
  ⟨rfl, rfl, base64Encode_length arr h, rfl⟩

/-- Witness for claim C4 on an instance that already held a token. -/
theorem remember_spec_witness :
    (List.replicate 24 255).length = 24 ∧
    (({ id := 7, state := .Updated, identity := some "bob", token := some "old",
        ip := none, user_agent := none, created := 3 } : SqlIdentity).remember
          "alice" (List.replicate 24 255)).identity = some "alice" ∧
    (({ id := 7, state := .Updated, identity := some "bob", token := some "old",
        ip := none, user_agent := none, created := 3 } : SqlIdentity).remember
          "alice" (List.replicate 24 255)).token = some (base64Encode (List.replicate 24 255)) ∧
    (base64Encode (List.replicate 24 255)).length = 32 ∧
    (({ id := 7, state := .Updated, identity := some "bob", token := some "old",
        ip := none, user_agent := none, created := 3 } : SqlIdentity).remember
          "alice" (List.replicate 24 255)).state = .Created := by
  refine ⟨by decide, ?_⟩
  have h := remember_spec
    { id := 7, state := .Updated, identity := some "bob", token := some "old",
      ip := none, user_agent := none, created := 3 } "alice"
    (List.replicate 24 255) (by decide)
  exact ⟨h.1, h.2.1, h.2.2.1, h.2.2.2⟩

/-- Claim C5: a write in state `Deleted` or `Updated` without a token is
rejected with the `TokenRequired` bad request; in particular `forget` on an
unbound identity followed by `write` yields that client error. -/
theorem write_token_required (s : SqlIdentity) (resp : HttpResponse) :
    ((s.state = .Deleted ∨ s.state = .Updated) → s.token = none →
      s.write resp = .error (.errorBadRequest .TokenRequired)) ∧
    (s.token = none →
      s.forget.write resp = .error (.errorBadRequest .TokenRequired)) := by
  constructor
  · rintro (hs | hs) ht <;> simp [SqlIdentity.write, hs, ht]
  · intro ht
    simp [SqlIdentity.forget, SqlIdentity.write, ht]

/-- Witness for claim C5: a deleted-state instance without a token, and an
unbound instance after `forget`, both rejected at a concrete write. -/
theorem write_token_required_witness :
    ({ id := -1, state := .Deleted, identity := none, token := none, ip := none,
       user_agent := none, created := 0 } : SqlIdentity).write ⟨[]⟩ =
      .error (.errorBadRequest .TokenRequired) ∧
    ({ id := -1, state := .Unchanged, identity := none, token := none, ip := none,
       user_agent := none, created := 0 } : SqlIdentity).forget.write ⟨[]⟩ =
      .error (.errorBadRequest .TokenRequired) :=
  ⟨(write_token_required
      { id := -1, state := .Deleted, identity := none, token := none, ip := none,
        user_agent := none, created := 0 } ⟨[]⟩).1 (Or.inl rfl) rfl,
   (write_token_required
      { id := -1, state := .Unchanged, identity := none, token := none, ip := none,
        user_agent := none, created := 0 } ⟨[]⟩).2 rfl⟩

/-- Claim C6: a store failure in find during resolution is swallowed: the
request resolves to the unbound (anonymous) instance, never to an error. -/
theorem resolve_store_error_anonymous (authHeader : Option String) (t : String)
    (find : String → Except StoreError SqlIdentityModel) (e : StoreError)
    (conn_ip ua : String) (now : Int)
    (hload : SqlIdentityInner.load authHeader = .findToken t)
    (hfind : find t = .error e) :
    SqlIdentityPolicy.from_request authHeader find conn_ip ua now =
      { id := -1, identity := none, token := none, ip := some conn_ip,
        user_agent := some ua, created := now, state := .Unchanged } := by
  simp [SqlIdentityPolicy.from_request, SqlIdentityInner.loadResult, hload, hfind]

/-- Witness for claim C6 at a concrete request with a failing store. -/
theorem resolve_store_error_anonymous_witness :
    SqlIdentityPolicy.from_request (some "Bearer tok")
        (fun _ => Except.error StoreError.connectionFailed) "1.2.3.4" "ua" 9 =
      { id := -1, identity := none, token := none, ip := some "1.2.3.4",
        user_agent := some "ua", created := 9, state := .Unchanged } :=
  resolve_store_error_anonymous (some "Bearer tok") "tok"
    (fun _ => Except.error StoreError.connectionFailed) StoreError.connectionFailed
    "1.2.3.4" "ua" 9 (by decide) rfl

/-- Claim C7: with no Authorization header, or a header value lacking a
second space-separated field, `load` never consults the store and the
request resolves to the unbound instance. -/
theorem resolve_no_token_no_find (find : String → Except StoreError SqlIdentityModel)
    (conn_ip ua : String) (now : Int) :
    (SqlIdentityInner.load none = .noCall ∧
      SqlIdentityPolicy.from_request none find conn_ip ua now =
        { id := -1, identity := none, token := none, ip := some conn_ip,
          user_agent := some ua, created := now, state := .Unchanged }) ∧
    (∀ raw hv, headerToStr raw = some hv → (splitChar ' ' hv).get? 1 = none →
      SqlIdentityInner.load (some raw) = .noCall ∧
      SqlIdentityPolicy.from_request (some raw) find conn_ip ua now =
        { id := -1, identity := none, token := none, ip := some conn_ip,
          user_agent := some ua, created := now, state := .Unchanged }) := by
  constructor
  · exact ⟨rfl, rfl⟩
  · intro raw hv hs hn
    have hl : SqlIdentityInner.load (some raw) = .noCall := by
      have hn2 : (splitChar ' ' hv)[1]? = none := by
        rw [← List.get?_eq_getElem?]
        exact hn
      simp only [SqlIdentityInner.load, hs]
      cases h0 : (splitChar ' ' hv).get? 0 <;> simp [h0, hn2]
    refine ⟨hl, ?_⟩
    simp [SqlIdentityPolicy.from_request, SqlIdentityInner.loadResult, hl]

/-- Witness for claim C7: a scheme-only header never reaches the store. -/
theorem resolve_no_token_no_find_witness :
    SqlIdentityInner.load (some "Bearer") = .noCall ∧
    SqlIdentityPolicy.from_request (some "Bearer")
        (fun _ => Except.ok ⟨1, "abc", "alice", 0⟩) "ip" "ua" 7 =
      { id := -1, identity := none, token := none, ip := some "ip",
        user_agent := some "ua", created := 7, state := .Unchanged } :=
  (resolve_no_token_no_find (fun _ => Except.ok ⟨1, "abc", "alice", 0⟩) "ip" "ua" 7).2
    "Bearer" "Bearer" (by decide) (by decide)

/-- Claim C8: `forget` clears the identity and marks the state `Deleted`
while leaving the token and every other field untouched. -/
theorem forget_frame (s : SqlIdentity) :
    s.forget.identity = none ∧ s.forget.state = .Deleted ∧
    s.forget.token = s.token ∧ s.forget.id = s.id ∧ s.forget.ip = s.ip ∧
    s.forget.user_agent = s.user_agent ∧ s.forget.created = s.created :=
  ⟨rfl, rfl, rfl, rfl, rfl, rfl, rfl⟩

lemma isPrefixOf_head_eq {a b : Char} {l1 l2 l : List Char}
    (h1 : List.isPrefixOf (a :: l1) l = true)
    (h2 : List.isPrefixOf (b :: l2) l = true) : a = b := by
  cases l with
  | nil => simp [List.isPrefixOf] at h1
  | cons c t =>
      simp [List.isPrefixOf] at h1 h2
      exact h1.1.trans h2.1.symm

lemma mysql_prefix_not_pg (uri : String) (h : startsWithStr uri "mysql://" = true) :
    startsWithStr uri "postgres://" = false ∧
    startsWithStr uri "postgresql://" = false := by
  have hm : "mysql://".toList = 'm' :: "ysql://".toList := rfl
  have hp1 : "postgres://".toList = 'p' :: "ostgres://".toList := rfl
  have hp2 : "postgresql://".toList = 'p' :: "ostgresql://".toList := rfl
  unfold startsWithStr at h ⊢
  rw [hm] at h
  rw [hp1, hp2]
  constructor
  · cases hq : List.isPrefixOf ('p' :: "ostgres://".toList) uri.toList
    · rfl
    · exact absurd (isPrefixOf_head_eq h hq) (by decide)
  · cases hq : List.isPrefixOf ('p' :: "ostgresql://".toList) uri.toList
    · rfl
    · exact absurd (isPrefixOf_head_eq h hq) (by decide)

/-- Claim C9, as stated, fails for its error part: a URI with an unknown
scheme is not rejected at configuration time; it silently selects the
SQLite variant and `finish` succeeds whenever the connection does. -/
theorem variant_unknown_scheme_cex :
    SqlIdentityBuilder.variantFor "foo://bar" = Variant.Sqlite ∧
    (SqlIdentityBuilder.new "foo://bar").finish
        (fun _ _ _ => Except.ok ⟨3, "foo://bar"⟩) =
      Except.ok ⟨⟨⟨3, "foo://bar"⟩, "X-Actix-Auth"⟩⟩ :=
  ⟨by decide, rfl⟩

/-- Claim C9 (amended): the scheme prefix selects the backend: `mysql://`
gives MySQL, `postgres://` or `postgresql://` gives PostgreSQL, and every
other URI falls back to the SQLite variant; `finish` then attempts the
connection for the selected variant, so no configuration-time
variant-not-supported error is ever produced. -/
theorem variant_selection (uri : String) :
    (startsWithStr uri "mysql://" = true →
      SqlIdentityBuilder.variantFor uri = .Mysql) ∧
    ((startsWithStr uri "postgres://" = true ∨ startsWithStr uri "postgresql://" = true) →
      SqlIdentityBuilder.variantFor uri = .Pg) ∧
    (startsWithStr uri "mysql://" = false → startsWithStr uri "postgres://" = false →
      startsWithStr uri "postgresql://" = false →
      SqlIdentityBuilder.variantFor uri = .Sqlite) ∧
    (∀ a : SqlActor, (SqlIdentityBuilder.new uri).finish (fun _ _ _ => Except.ok a) =
      Except.ok ⟨⟨a, DEFAULT_RESPONSE_HDR⟩⟩) := by
  refine ⟨?_, ?_, ?_, ?_⟩
  · intro h
    simp [SqlIdentityBuilder.variantFor, h]
  · intro h
    have hm : startsWithStr uri "mysql://" = false := by
      cases hq : startsWithStr uri "mysql://"
      · rfl
      · rcases h with h | h
        · exact absurd (mysql_prefix_not_pg uri hq).1 (by simp [h])
        · exact absurd (mysql_prefix_not_pg uri hq).2 (by simp [h])
    rcases h with h | h <;> simp [SqlIdentityBuilder.variantFor, hm, h]
  · intro h1 h2 h3
    simp [SqlIdentityBuilder.variantFor, h1, h2, h3]
  · intro a
    cases hv : SqlIdentityBuilder.variantFor uri <;>
      simp [SqlIdentityBuilder.finish, SqlIdentityBuilder.new, hv, Except.map]

/-- Witness for the amended claim C9 on the three scheme families. -/
theorem variant_selection_witness :
    SqlIdentityBuilder.variantFor "mysql://db" = Variant.Mysql ∧
    SqlIdentityBuilder.variantFor "postgres://db" = Variant.Pg ∧
    SqlIdentityBuilder.variantFor "postgresql://db" = Variant.Pg ∧
    SqlIdentityBuilder.variantFor "sqlite://db" = Variant.Sqlite :=
  ⟨(variant_selection "mysql://db").1 (by decide),
   (variant_selection "postgres://db").2.1 (Or.inl (by decide)),
   (variant_selection "postgresql://db").2.1 (Or.inr (by decide)),
   (variant_selection "sqlite://db").2.2.1 (by decide) (by decide) (by decide)⟩

/-- Claim C10: every reachable per-request instance in state `Created` has
both token and identity populated, so the token-absent `TokenNotFound`
unauthorized branch of the write-time create path is unreachable. -/
theorem created_state_tokens (s : SqlIdentity) (hr : Reachable s) :
    (s.state = .Created → s.token.isSome = true ∧ s.identity.isSome = true) ∧
    (s.state = .Created → ∀ hdr resp storeResult,
      SqlIdentityInner.create hdr s resp storeResult ≠
        Except.error (ActixError.errorUnauthorized SqlIdentityError.TokenNotFound)) := by
  have hinv := reachable_createdInv s hr
  refine ⟨hinv, ?_⟩
  intro hc hdr resp storeResult
  obtain ⟨htok, -⟩ := hinv hc
  obtain ⟨t, ht⟩ := Option.isSome_iff_exists.mp htok
  cases hp : headerValueParse t <;> cases storeResult <;>
    simp [SqlIdentityInner.create, ht, hp]

/-- Witness for claim C10: an instance reached by resolving anonymously and
then remembering a user never hits the unauthorized create branch. -/
theorem created_state_tokens_witness :
    SqlIdentityInner.create "X-Actix-Auth"
        ((SqlIdentityPolicy.from_request none (fun _ => Except.error StoreError.notFound)
            "ip" "ua" 0).remember "alice" (List.replicate 24 0)) ⟨[]⟩ (Except.ok ())
      ≠ Except.error (ActixError.errorUnauthorized SqlIdentityError.TokenNotFound) := by
  have hreach : Reachable ((SqlIdentityPolicy.from_request none
      (fun _ => Except.error StoreError.notFound) "ip" "ua" 0).remember "alice"
        (List.replicate 24 0)) :=
    ⟨SqlIdentityPolicy.from_request none (fun _ => Except.error StoreError.notFound)
        "ip" "ua" 0,
     ⟨none, fun _ => Except.error StoreError.notFound, "ip", "ua", 0, rfl⟩,
     Relation.ReflTransGen.single (Step.remember _ "alice" (List.replicate 24 0))⟩
  exact (created_state_tokens _ hreach).2 rfl "X-Actix-Auth" ⟨[]⟩ (Except.ok ())

end ActixSqlIdentity
